import Mathlib

/-!
Verification development for the homework status bot
(`homework.py` and `exceptions.py`).

The program is embedded shallowly:

* JSON values are modelled by the inductive `Json`; Python semantics that
  the source relies on (`in`, subscripting, truthiness, `str`) are modelled
  by `pyContains`, `pySubscript`, `Json.pyTruthy`, `Json.pyToStr`.
* Python exceptions are modelled by `PyError`.  A raised exception is an
  `Except.error`.  Note that `APIStatusError.__str__` (in `exceptions.py`)
  refers to a global name `response` that is defined nowhere, so calling
  `str` on such an exception raises `NameError`; this is modelled by
  `pyStr`.
* The network and the Telegram bot are external collaborators; they are
  modelled by an environment `Env` supplying the HTTP result for a request
  and the outcome of a send.
* The polling loop body (the `while True` body of `main`) is modelled by
  `iterate`, returning the next state or a crash, together with the list
  of observable events (API calls, send attempts, sleeps) of the
  iteration.  `runLoop` runs a bounded number of iterations, `mainRun`
  models `main` (credential check, then the loop).
-/

set_option autoImplicit false

namespace HomeworkBot

/-- JSON values (the payloads exchanged with the review API). -/
inductive Json where
  | str (s : String)
  | num (n : Int)
  | bool (b : Bool)
  | null
  | arr (elems : List Json)
  | obj (fields : List (String × Json))

/-- First-match association-list lookup, modelling Python dict access
(objects produced by `json.loads` have unique keys). -/
def assocLookup (key : String) : List (String × Json) → Option Json
  | [] => none
  | (k, v) :: rest => if k = key then some v else assocLookup key rest

/-- Python `type(x)` rendering used in the error messages of
`check_response`. -/
def Json.pyType : Json → String
  | .str _ => "<class \x27str\x27>"
  | .num _ => "<class \x27int\x27>"
  | .bool _ => "<class \x27bool\x27>"
  | .null => "<class \x27NoneType\x27>"
  | .arr _ => "<class \x27list\x27>"
  | .obj _ => "<class \x27dict\x27>"

mutual

/-- Python `repr` of a JSON value. -/
def Json.pyRepr : Json → String
  | .str s => "\x27" ++ s ++ "\x27"
  | .num n => toString n
  | .bool b => cond b "True" "False"
  | .null => "None"
  | .arr l => "[" ++ Json.pyReprList l ++ "]"
  | .obj l => "\x7b" ++ Json.pyReprObj l ++ "\x7d"

/-- Python `repr` of the elements of a list, comma separated. -/
def Json.pyReprList : List Json → String
  | [] => ""
  | [x] => Json.pyRepr x
  | x :: y :: xs => Json.pyRepr x ++ ", " ++ Json.pyReprList (y :: xs)

/-- Python `repr` of the items of a dict, comma separated. -/
def Json.pyReprObj : List (String × Json) → String
  | [] => ""
  | [(k, v)] => "\x27" ++ k ++ "\x27: " ++ Json.pyRepr v
  | (k, v) :: w :: xs =>
    "\x27" ++ k ++ "\x27: " ++ Json.pyRepr v ++ ", " ++ Json.pyReprObj (w :: xs)

end

/-- Python `str` of a JSON value (as interpolated by an f-string). -/
def Json.pyToStr : Json → String
  | .str s => s
  | j => j.pyRepr

/-- Python truthiness of a JSON value (`if not homework:`). -/
def Json.pyTruthy : Json → Bool
  | .str s => s != ""
  | .num n => n != 0
  | .bool b => b
  | .null => false
  | .arr l => !l.isEmpty
  | .obj l => !l.isEmpty

/-- The Python exceptions this program creates or meets.
`apiStatusError` is `APIStatusError` from `exceptions.py`; `apiException`
is `telebot.apihelper.ApiException`; `requestException` is
`requests.RequestException`.  Each carries the constructor argument. -/
inductive PyError where
  | apiStatusError (msg : String)
  | typeError (msg : String)
  | keyError (msg : String)
  | valueError (msg : String)
  | nameError (msg : String)
  | indexError (msg : String)
  | apiException (msg : String)
  | requestException (msg : String)
deriving DecidableEq

/-- The Python class name of an exception. -/
def PyError.className : PyError → String
  | .apiStatusError _ => "APIStatusError"
  | .typeError _ => "TypeError"
  | .keyError _ => "KeyError"
  | .valueError _ => "ValueError"
  | .nameError _ => "NameError"
  | .indexError _ => "IndexError"
  | .apiException _ => "ApiException"
  | .requestException _ => "RequestException"

/-- Whether the exception is in the class tuple
`(telebot.apihelper.ApiException, requests.exceptions.RequestException)`
used both by the first `except` clause of `main` and by the
`contextlib.suppress` around the failure notification. -/
def PyError.isMessagingError : PyError → Bool
  | .apiException _ => true
  | .requestException _ => true
  | _ => false

/-- Python `str(error)`.  For most exceptions this is determined by the
constructor argument (`KeyError` reprs it, adding quotes).  For
`APIStatusError`, `exceptions.py` overrides `__str__` with a body that
reads the name `response`, which is bound in no enclosing scope, so the
call itself raises `NameError`. -/
def pyStr : PyError → Except PyError String
  | .apiStatusError _ => .error (.nameError "name \x27response\x27 is not defined")
  | .typeError m => .ok m
  | .keyError m => .ok ("\x27" ++ m ++ "\x27")
  | .valueError m => .ok m
  | .nameError m => .ok m
  | .indexError m => .ok m
  | .apiException m => .ok m
  | .requestException m => .ok m

/-- Python `key in container` for a string key: dict key membership, list
element membership, substring test for strings, `TypeError` otherwise. -/
def pyContains (container : Json) (key : String) : Except PyError Bool :=
  match container with
  | .obj fields => .ok (assocLookup key fields).isSome
  | .arr elems =>
    .ok (elems.any (fun e => match e with | .str s => s == key | _ => false))
  | .str s => .ok (if key = "" then true else decide (2 ≤ (s.splitOn key).length))
  | .num _ => .error (.typeError "argument of type \x27int\x27 is not iterable")
  | .bool _ => .error (.typeError "argument of type \x27bool\x27 is not iterable")
  | .null => .error (.typeError "argument of type \x27NoneType\x27 is not iterable")

/-- Python `container[key]` for a string key. -/
def pySubscript (container : Json) (key : String) : Except PyError Json :=
  match container with
  | .obj fields =>
    match assocLookup key fields with
    | some v => .ok v
    | none => .error (.keyError key)
  | .str _ => .error (.typeError "string indices must be integers")
  | .arr _ => .error (.typeError "list indices must be integers or slices, not str")
  | .num _ => .error (.typeError "\x27int\x27 object is not subscriptable")
  | .bool _ => .error (.typeError "\x27bool\x27 object is not subscriptable")
  | .null => .error (.typeError "\x27NoneType\x27 object is not subscriptable")

/-- Python `container[0]` (used as `homework[0]` on the validated list). -/
def pyFirst : Json → Except PyError Json
  | .arr (h :: _) => .ok h
  | .arr [] => .error (.indexError "list index out of range")
  | .str _ => .error (.typeError "string indices must be integers")
  | _ => .error (.typeError "object is not subscriptable")

/-- `REQUIRED_TOKENS` from `homework.py`. -/
def REQUIRED_TOKENS : List String :=
  ["PRACTICUM_TOKEN", "TELEGRAM_TOKEN", "TELEGRAM_CHAT_ID"]

/-- `REQUIRED_API_KEYS` from `homework.py`. -/
def REQUIRED_API_KEYS : List String :=
  ["homework_name", "status"]

/-- `RETRY_PERIOD` from `homework.py` (seconds slept between iterations). -/
def RETRY_PERIOD : Nat := 600

/-- `ENDPOINT` from `homework.py`. -/
def ENDPOINT : String :=
  "https://practicum.yandex.ru/api/user_api/homework_statuses/"

/-- `HOMEWORK_VERDICTS` from `homework.py`. -/
def HOMEWORK_VERDICTS : List (String × String) :=
  [("approved", "Работа проверена: ревьюеру всё понравилось. Ура!"),
   ("reviewing", "Работа взята на проверку ревьюером."),
   ("rejected", "Работа проверена: у ревьюера есть замечания.")]

/-- The three environment variables read at module load. `none` models an
unset variable (`os.getenv` returning `None`). -/
structure Config where
  PRACTICUM_TOKEN : Option String
  TELEGRAM_TOKEN : Option String
  TELEGRAM_CHAT_ID : Option String
deriving DecidableEq

/-- `globals()[name]` for the three credential globals. -/
def tokenValue (c : Config) : String → Option String
  | "PRACTICUM_TOKEN" => c.PRACTICUM_TOKEN
  | "TELEGRAM_TOKEN" => c.TELEGRAM_TOKEN
  | "TELEGRAM_CHAT_ID" => c.TELEGRAM_CHAT_ID
  | _ => none

/-- Python truthiness of an environment value: `None` and the empty
string are falsy. -/
def envTruthy : Option String → Bool
  | none => false
  | some s => s ≠ ""

/-- `check_tokens` from `homework.py`: collects the required credential
names whose values are falsy and raises `ValueError` if any. -/
def check_tokens (c : Config) : Except PyError Unit :=
  if REQUIRED_TOKENS.filter (fun n => !envTruthy (tokenValue c n)) ≠ [] then
    .error (.valueError ("Отсутствует обязательные ременные окружения: "
      ++ String.intercalate ", "
        (REQUIRED_TOKENS.filter (fun n => !envTruthy (tokenValue c n)))))
  else
    .ok ()

/-- Result of the `requests.get` call, supplied by the environment:
either a raised `requests.RequestException` (with its text), or a
response carrying status code, `response.url`, the `repr` of
`response.request`, and the parsed JSON body. -/
inductive HttpResult where
  | netFail (errMsg : String)
  | response (statusCode : Nat) (url : String) (requestRepr : String) (body : Json)

/-- `get_api_answer` from `homework.py`.  The GET request is modelled by
applying the environment function `net` to the `from_date` timestamp. -/
def get_api_answer (timestamp : Int) (net : Int → HttpResult) : Except PyError Json :=
  match net timestamp with
  | .netFail err =>
    .error (.apiStatusError ("Сбой запроса к API: " ++ err))
  | .response code url req body =>
    if code ≠ 200 then
      .error (.apiStatusError ("Ошибка запроса."
        ++ "Статус-код: " ++ toString code ++ ". "
        ++ "Адрес запроса: " ++ url
        ++ "Параметры ответа: " ++ req))
    else
      .ok body

/-- `check_response` from `homework.py`: `TypeError` unless the value is
a dict, `KeyError` unless it has key `homeworks`, `TypeError` unless that
value is a list. -/
def check_response (response : Json) : Except PyError Unit :=
  match response with
  | .obj fields =>
    match assocLookup "homeworks" fields with
    | none => .error (.keyError "Ключ \"homeworks\" отсутствует в ответе API.")
    | some (.arr _) => .ok ()
    | some other =>
      .error (.typeError ("Полученный тип данных (" ++ other.pyType ++ ")"
        ++ "не соотвествует ожидаемому (list)"))
  | other =>
    .error (.typeError ("Полученный тип данных (" ++ other.pyType ++ ") "
      ++ "не соотвествует ожидаемому (dict)"))

/-- The list comprehension of `parse_status`: the required keys `k` with
`k not in homework`, evaluated left to right (a non-iterable `homework`
raises `TypeError` at the first test). -/
def pyMissingKeys (hw : Json) : List String → Except PyError (List String)
  | [] => .ok []
  | k :: rest =>
    match pyContains hw k with
    | .error e => .error e
    | .ok c =>
      match pyMissingKeys hw rest with
      | .error e => .error e
      | .ok ms => .ok (if c then ms else k :: ms)

/-- First-match lookup among the verdict keys for a string status. -/
def lookupVerdictKey (s : String) : List (String × String) → Option String
  | [] => none
  | (k, v) :: rest => if s = k then some v else lookupVerdictKey s rest

/-- The membership test `homework_status not in HOMEWORK_VERDICTS.keys()`
followed by the subscript `HOMEWORK_VERDICTS[homework_status]`.  Python
dict membership hashes the candidate: an unhashable value (a list or a
dict) raises `TypeError`; a hashable non-key (a string outside the table,
a number, a boolean, `None`) is simply not a member. -/
def verdictLookup (st : Json) : Except PyError (Option String) :=
  match st with
  | .arr _ => .error (.typeError "unhashable type: \x27list\x27")
  | .obj _ => .error (.typeError "unhashable type: \x27dict\x27")
  | .str s => .ok (lookupVerdictKey s HOMEWORK_VERDICTS)
  | _ => .ok none

/-- `parse_status` from `homework.py`. -/
def parse_status (homework : Json) : Except PyError String :=
  match pyMissingKeys homework REQUIRED_API_KEYS with
  | .error e => .error e
  | .ok missing_keys =>
    if missing_keys ≠ [] then
      .error (.keyError ("Ответ API домашки не содержит необходимые ключи "
        ++ "[" ++ Json.pyReprList (missing_keys.map Json.str) ++ "]"))
    else
      match pySubscript homework "homework_name" with
      | .error e => .error e
      | .ok homework_name =>
        match pySubscript homework "status" with
        | .error e => .error e
        | .ok homework_status =>
          match verdictLookup homework_status with
          | .error e => .error e
          | .ok none =>
            .error (.valueError ("Недокументированный статус "
              ++ "домашней работы: " ++ homework_status.pyToStr))
          | .ok (some verdict) =>
            .ok ("Изменился статус проверки работы \""
              ++ homework_name.pyToStr ++ "\". " ++ verdict)

/-- The in-memory loop state of `main`: the fixed `from_date` timestamp
taken once at startup and the last-notified message (`old_message`). -/
structure BotState where
  timestamp : Int
  old_message : String
deriving DecidableEq

/-- The external collaborators of one iteration: the review API (the
result of the GET for a given `from_date`) and the Telegram send (its
outcome for a given text; `.error` is the exception it raises). -/
structure Env where
  net : Int → HttpResult
  send : String → Except PyError Unit

/-- Outcome of one pass of the `while True` body: continue with the next
state, or an exception propagating out of `main`. -/
inductive StepResult where
  | next (s : BotState)
  | crash (e : PyError)
deriving DecidableEq

/-- Observable actions of the loop: a GET to the review API with its
`from_date`, a send attempt with its text and outcome, and the
`time.sleep` of the `finally` block. -/
inductive Event where
  | apiCall (ts : Int)
  | sendAttempt (msg : String) (ok : Bool)
  | sleep (secs : Nat)
deriving DecidableEq

/-- The `try` block of the loop body of `main`: fetch, validate, take
the `homeworks` field, skip when falsy (`continue`), extract the
status message of element 0, and send it when it differs from the
last-notified message (updating the latter only after the send returned).
Returns the resulting state or the escaping exception, with the events of
the block. -/
def tryBody (env : Env) (s : BotState) : Except PyError BotState × List Event :=
  match get_api_answer s.timestamp env.net with
  | .error e => (.error e, [Event.apiCall s.timestamp])
  | .ok response =>
    match check_response response with
    | .error e => (.error e, [Event.apiCall s.timestamp])
    | .ok _ =>
      match pySubscript response "homeworks" with
      | .error e => (.error e, [Event.apiCall s.timestamp])
      | .ok homework =>
        if homework.pyTruthy then
          match pyFirst homework with
          | .error e => (.error e, [Event.apiCall s.timestamp])
          | .ok hw0 =>
            match parse_status hw0 with
            | .error e => (.error e, [Event.apiCall s.timestamp])
            | .ok new_message =>
              if new_message ≠ s.old_message then
                match env.send new_message with
                | .ok _ =>
                  (.ok { s with old_message := new_message },
                   [Event.apiCall s.timestamp, Event.sendAttempt new_message true])
                | .error e =>
                  (.error e,
                   [Event.apiCall s.timestamp, Event.sendAttempt new_message false])
              else
                (.ok s, [Event.apiCall s.timestamp])
        else
          (.ok s, [Event.apiCall s.timestamp])

/-- The second `except` clause of `main` (`except Exception`): evaluate
the f-string over `str(error)` (which itself raises `NameError` when the
error is an `APIStatusError`, because of the broken `__str__` of
`exceptions.py`), and when the failure text differs from the
last-notified message attempt a best-effort send with
`ApiException`/`RequestException` suppressed, updating the last-notified
message only after a send that returned. -/
def handler2 (env : Env) (s : BotState) (e : PyError) :
    Except PyError BotState × List Event :=
  match pyStr e with
  | .error e2 => (.error e2, [])
  | .ok errText =>
    if "Сбой в работе программы: " ++ errText ≠ s.old_message then
      match env.send ("Сбой в работе программы: " ++ errText) with
      | .ok _ =>
        (.ok { s with old_message := "Сбой в работе программы: " ++ errText },
         [Event.sendAttempt ("Сбой в работе программы: " ++ errText) true])
      | .error e2 =>
        if e2.isMessagingError then
          (.ok s, [Event.sendAttempt ("Сбой в работе программы: " ++ errText) false])
        else
          (.error e2,
           [Event.sendAttempt ("Сбой в работе программы: " ++ errText) false])
    else
      (.ok s, [])

/-- One pass of the `while True` body of `main`, the `except` clauses and
the `finally` sleep included.  The first `except` clause (for
`ApiException`/`RequestException`) only logs; the second is `handler2`;
`time.sleep(RETRY_PERIOD)` runs on every path, the crashing ones
included. -/
def iterate (env : Env) (s : BotState) : StepResult × List Event :=
  match tryBody env s with
  | (.ok s2, evs) => (.next s2, evs ++ [Event.sleep RETRY_PERIOD])
  | (.error e, evs) =>
    if e.isMessagingError then
      (.next s, evs ++ [Event.sleep RETRY_PERIOD])
    else
      match handler2 env s e with
      | (.ok s2, evs2) => (.next s2, evs ++ evs2 ++ [Event.sleep RETRY_PERIOD])
      | (.error e2, evs2) => (.crash e2, evs ++ evs2 ++ [Event.sleep RETRY_PERIOD])

/-- Run at most `fuel` passes of the loop, stopping early only when an
iteration crashes.  Returns the final outcome and the concatenated
events. -/
def runLoop (env : Env) (s : BotState) : Nat → StepResult × List Event
  | 0 => (.next s, [])
  | n + 1 =>
    match iterate env s with
    | (.crash e, evs) => (.crash e, evs)
    | (.next s2, evs) =>
      let r := runLoop env s2 n
      (r.1, evs ++ r.2)

/-- `main`: `check_tokens` first (its `ValueError` propagates and ends the
process with no iteration run), then the loop from the state with the
current time as timestamp and an empty last-notified message. -/
def mainRun (c : Config) (now : Int) (env : Env) (fuel : Nat) :
    Sum StepResult PyError × List Event :=
  match check_tokens c with
  | .error e => (Sum.inr e, [])
  | .ok _ =>
    (Sum.inl (runLoop env { timestamp := now, old_message := "" } fuel).1,
     (runLoop env { timestamp := now, old_message := "" } fuel).2)

/-- The send attempts of an event trace, with their outcomes. -/
def sendMsgs : List Event → List (String × Bool)
  | [] => []
  | e :: rest =>
    match e with
    | .sendAttempt m b => (m, b) :: sendMsgs rest
    | _ => sendMsgs rest

/-- The texts of the successful sends of an event trace. -/
def okSends : List Event → List String
  | [] => []
  | e :: rest =>
    match e with
    | .sendAttempt m true => m :: okSends rest
    | _ => okSends rest

/-- `ChainFrom old l`: each element of `l` differs from its predecessor,
the predecessor of the first being `old`. -/
def ChainFrom (old : String) : List String → Prop
  | [] => True
  | m :: rest => m ≠ old ∧ ChainFrom m rest

/-- `pat` occurs as a substring of `hay`. -/
def ContainsStr (hay pat : String) : Prop :=
  ∃ a b, hay = a ++ pat ++ b

/-- The class of the raised exception, when one was raised. -/
def errClass : Except PyError Json → Option String
  | .error e => some e.className
  | .ok _ => none

lemma sendMsgs_append (a b : List Event) :
    sendMsgs (a ++ b) = sendMsgs a ++ sendMsgs b := by
  induction a with
  | nil => rfl
  | cons e rest ih => cases e <;> simp [sendMsgs, ih]

lemma okSends_append (a b : List Event) :
    okSends (a ++ b) = okSends a ++ okSends b := by
  induction a with
  | nil => rfl
  | cons e rest ih =>
    cases e with
    | sendAttempt m ok => cases ok <;> simp [okSends, ih]
    | apiCall ts => simp [okSends, ih]
    | sleep n => simp [okSends, ih]

lemma chainFrom_chain {old : String} {l : List String} (h : ChainFrom old l) :
    List.Chain' (fun a b => a ≠ b) l := by
  induction l generalizing old with
  | nil => exact List.chain'_nil
  | cons m rest ih =>
    obtain ⟨_, h2⟩ := h
    cases rest with
    | nil => exact List.chain'_singleton m
    | cons m2 r2 =>
      rw [List.chain'_cons]
      exact ⟨Ne.symm h2.1, ih h2⟩

/-- Case analysis of the `try` block: either no send attempt happened and
the state is unchanged (on success) or an exception escapes; or exactly
one send attempt happened, with a text differing from the last-notified
message, successful (updating the state) or failed (the send exception
escaping). -/
lemma tryBody_spec (env : Env) (s : BotState) :
    tryBody env s = (.ok s, [Event.apiCall s.timestamp])
  ∨ (∃ e, tryBody env s = (.error e, [Event.apiCall s.timestamp]))
  ∨ (∃ m, m ≠ s.old_message ∧
      tryBody env s = (.ok { s with old_message := m },
        [Event.apiCall s.timestamp, Event.sendAttempt m true]))
  ∨ (∃ m e, m ≠ s.old_message ∧
      tryBody env s = (.error e,
        [Event.apiCall s.timestamp, Event.sendAttempt m false])) := by
  unfold tryBody
  split
  · exact Or.inr (Or.inl ⟨_, rfl⟩)
  · split
    · exact Or.inr (Or.inl ⟨_, rfl⟩)
    · split
      · exact Or.inr (Or.inl ⟨_, rfl⟩)
      · split
        · split
          · exact Or.inr (Or.inl ⟨_, rfl⟩)
          · split
            · exact Or.inr (Or.inl ⟨_, rfl⟩)
            · split
              · rename_i new_message heqp hne
                split
                · exact Or.inr (Or.inr (Or.inl ⟨new_message, hne, rfl⟩))
                · exact Or.inr (Or.inr (Or.inr ⟨new_message, _, hne, rfl⟩))
              · exact Or.inl rfl
        · exact Or.inl rfl

/-- Case analysis of the generic exception handler. -/
lemma handler2_spec (env : Env) (s : BotState) (e : PyError) :
    (∃ e2, handler2 env s e = (.error e2, []))
  ∨ handler2 env s e = (.ok s, [])
  ∨ (∃ m, m ≠ s.old_message ∧
      (handler2 env s e = (.ok { s with old_message := m },
         [Event.sendAttempt m true])
       ∨ handler2 env s e = (.ok s, [Event.sendAttempt m false])
       ∨ ∃ e2, handler2 env s e = (.error e2, [Event.sendAttempt m false]))) := by
  unfold handler2
  split
  · exact Or.inl ⟨_, rfl⟩
  · split
    · next errText hne =>
      split
      · exact Or.inr (Or.inr ⟨_, hne, Or.inl rfl⟩)
      · split
        · exact Or.inr (Or.inr ⟨_, hne, Or.inr (Or.inl rfl)⟩)
        · exact Or.inr (Or.inr ⟨_, hne, Or.inr (Or.inr ⟨_, rfl⟩)⟩)
    · exact Or.inr (Or.inl rfl)

/-- Case analysis of one full iteration: the trace is the API call, then
zero, one or two send attempts, then the sleep; every attempted text
differs from the last-notified message; the state changes only to record
the text of a successful send; at most one successful send occurs, and
only a failed second attempt can precede a crash. -/
lemma iterate_spec (env : Env) (s : BotState) :
    (∃ r, iterate env s = (r, [Event.apiCall s.timestamp, Event.sleep RETRY_PERIOD]) ∧
       (r = .next s ∨ ∃ e, r = .crash e))
  ∨ (∃ m b r, m ≠ s.old_message ∧
       iterate env s = (r, [Event.apiCall s.timestamp, Event.sendAttempt m b,
         Event.sleep RETRY_PERIOD]) ∧
       ((b = true ∧ r = .next { s with old_message := m })
        ∨ (b = false ∧ (r = .next s ∨ ∃ e, r = .crash e))))
  ∨ (∃ m m2 b2 r, m ≠ s.old_message ∧ m2 ≠ s.old_message ∧
       iterate env s = (r, [Event.apiCall s.timestamp, Event.sendAttempt m false,
         Event.sendAttempt m2 b2, Event.sleep RETRY_PERIOD]) ∧
       ((b2 = true ∧ r = .next { s with old_message := m2 })
        ∨ (b2 = false ∧ (r = .next s ∨ ∃ e, r = .crash e)))) := by
  rcases tryBody_spec env s with h | ⟨e, h⟩ | ⟨m, hm, h⟩ | ⟨m, e, hm, h⟩
  · exact Or.inl ⟨.next s, by simp [iterate, h], Or.inl rfl⟩
  · by_cases hme : e.isMessagingError = true
    · exact Or.inl ⟨.next s, by simp [iterate, h, hme], Or.inl rfl⟩
    · rcases handler2_spec env s e with ⟨e2, h2⟩ | h2 | ⟨m2, hm2, h2 | h2 | ⟨e2, h2⟩⟩
      · exact Or.inl ⟨.crash e2, by simp [iterate, h, hme, h2], Or.inr ⟨e2, rfl⟩⟩
      · exact Or.inl ⟨.next s, by simp [iterate, h, hme, h2], Or.inl rfl⟩
      · exact Or.inr (Or.inl ⟨m2, true, .next { s with old_message := m2 }, hm2,
          by simp [iterate, h, hme, h2], Or.inl ⟨rfl, rfl⟩⟩)
      · exact Or.inr (Or.inl ⟨m2, false, .next s, hm2,
          by simp [iterate, h, hme, h2], Or.inr ⟨rfl, Or.inl rfl⟩⟩)
      · exact Or.inr (Or.inl ⟨m2, false, .crash e2, hm2,
          by simp [iterate, h, hme, h2], Or.inr ⟨rfl, Or.inr ⟨e2, rfl⟩⟩⟩)
  · exact Or.inr (Or.inl ⟨m, true, .next { s with old_message := m }, hm,
      by simp [iterate, h], Or.inl ⟨rfl, rfl⟩⟩)
  · by_cases hme : e.isMessagingError = true
    · exact Or.inr (Or.inl ⟨m, false, .next s, hm,
        by simp [iterate, h, hme], Or.inr ⟨rfl, Or.inl rfl⟩⟩)
    · rcases handler2_spec env s e with ⟨e2, h2⟩ | h2 | ⟨m2, hm2, h2 | h2 | ⟨e2, h2⟩⟩
      · exact Or.inr (Or.inl ⟨m, false, .crash e2, hm,
          by simp [iterate, h, hme, h2], Or.inr ⟨rfl, Or.inr ⟨e2, rfl⟩⟩⟩)
      · exact Or.inr (Or.inl ⟨m, false, .next s, hm,
          by simp [iterate, h, hme, h2], Or.inr ⟨rfl, Or.inl rfl⟩⟩)
      · exact Or.inr (Or.inr ⟨m, m2, true, .next { s with old_message := m2 }, hm, hm2,
          by simp [iterate, h, hme, h2], Or.inl ⟨rfl, rfl⟩⟩)
      · exact Or.inr (Or.inr ⟨m, m2, false, .next s, hm, hm2,
          by simp [iterate, h, hme, h2], Or.inr ⟨rfl, Or.inl rfl⟩⟩)
      · exact Or.inr (Or.inr ⟨m, m2, false, .crash e2, hm, hm2,
          by simp [iterate, h, hme, h2], Or.inr ⟨rfl, Or.inr ⟨e2, rfl⟩⟩⟩)

/-- Every text attempted in one iteration differs from the last-notified
message of the state the iteration started from. -/
lemma iterate_sendMsgs (env : Env) (s : BotState) :
    ∀ p ∈ sendMsgs (iterate env s).2, p.1 ≠ s.old_message := by
  rcases iterate_spec env s with ⟨r, hr, _⟩ | ⟨m, b, r, hm, hr, _⟩ |
    ⟨m, m2, b2, r, hm, hm2, hr, _⟩
  · rw [hr]
    simp [sendMsgs]
  · rw [hr]
    intro p hp
    simp [sendMsgs] at hp
    rw [hp]
    exact hm
  · rw [hr]
    intro p hp
    simp [sendMsgs] at hp
    rcases hp with hp | hp <;> rw [hp]
    · exact hm
    · exact hm2

/-- When an iteration continues, the timestamp is unchanged and the
last-notified message either is unchanged (no successful send) or equals
the text of the unique successful send of the iteration. -/
lemma iterate_next_state (env : Env) (s s2 : BotState)
    (h : (iterate env s).1 = .next s2) :
    s2.timestamp = s.timestamp ∧
    ((okSends (iterate env s).2 = [] ∧ s2.old_message = s.old_message)
     ∨ ∃ m, okSends (iterate env s).2 = [m] ∧ m ≠ s.old_message ∧
         s2.old_message = m) := by
  rcases iterate_spec env s with ⟨r, hr, hc⟩ | ⟨m, b, r, hm, hr, hc⟩ |
    ⟨m, m2, b2, r, hm, hm2, hr, hc⟩
  · rw [hr] at h ⊢
    rcases hc with rfl | ⟨e, rfl⟩
    · simp only at h
      injection h with h2
      rw [← h2]
      simp [okSends]
    · exact absurd h (by simp)
  · rw [hr] at h ⊢
    rcases hc with ⟨rfl, rfl⟩ | ⟨rfl, rfl | ⟨e, rfl⟩⟩
    · simp only at h
      injection h with h2
      rw [← h2]
      exact ⟨rfl, Or.inr ⟨m, by simp [okSends], hm, rfl⟩⟩
    · simp only at h
      injection h with h2
      rw [← h2]
      simp [okSends]
    · exact absurd h (by simp)
  · rw [hr] at h ⊢
    rcases hc with ⟨rfl, rfl⟩ | ⟨rfl, rfl | ⟨e, rfl⟩⟩
    · simp only at h
      injection h with h2
      rw [← h2]
      exact ⟨rfl, Or.inr ⟨m2, by simp [okSends], hm2, rfl⟩⟩
    · simp only at h
      injection h with h2
      rw [← h2]
      simp [okSends]
    · exact absurd h (by simp)

/-- A crashing iteration has no successful send. -/
lemma iterate_crash_okSends (env : Env) (s : BotState) (e : PyError)
    (h : (iterate env s).1 = .crash e) : okSends (iterate env s).2 = [] := by
  rcases iterate_spec env s with ⟨r, hr, hc⟩ | ⟨m, b, r, hm, hr, hc⟩ |
    ⟨m, m2, b2, r, hm, hm2, hr, hc⟩
  · rw [hr]
    simp [okSends]
  · rw [hr] at h ⊢
    rcases hc with ⟨rfl, rfl⟩ | ⟨rfl, _⟩
    · exact absurd h (by simp)
    · simp [okSends]
  · rw [hr] at h ⊢
    rcases hc with ⟨rfl, rfl⟩ | ⟨rfl, _⟩
    · exact absurd h (by simp)
    · simp [okSends]

/-- Over any bounded run, the successful sends form a chain in which each
text differs from the previous one, starting from the initial
last-notified message. -/
lemma runLoop_chain (env : Env) (n : Nat) : ∀ s : BotState,
    ChainFrom s.old_message (okSends (runLoop env s n).2) := by
  induction n with
  | zero =>
    intro s
    simp [runLoop, okSends, ChainFrom]
  | succ n ih =>
    intro s
    rcases hit : iterate env s with ⟨r, evs⟩
    cases r with
    | crash e =>
      have h0 : okSends (iterate env s).2 = [] :=
        iterate_crash_okSends env s e (by rw [hit])
      rw [hit] at h0
      simp only [runLoop, hit]
      simp [h0, ChainFrom]
    | next s2 =>
      have h0 := iterate_next_state env s s2 (by rw [hit])
      rw [hit] at h0
      simp only [runLoop, hit, okSends_append]
      rcases h0.2 with ⟨he, holds⟩ | ⟨m, he, hm, holds⟩
      · rw [he]
        simp only [List.nil_append]
        rw [← holds]
        exact ih s2
      · rw [he]
        refine ⟨by rw [← holds] at hm ⊢; exact hm, ?_⟩
        have := ih s2
        rw [holds] at this
        exact this

/-- Every API call of a bounded run carries the timestamp of the starting
state. -/
lemma runLoop_api (env : Env) (n : Nat) : ∀ (s : BotState) (ts : Int),
    Event.apiCall ts ∈ (runLoop env s n).2 → ts = s.timestamp := by
  induction n with
  | zero =>
    intro s ts h
    simp [runLoop] at h
  | succ n ih =>
    intro s ts h
    rcases hit : iterate env s with ⟨r, evs⟩
    have hevs : ∀ ts2, Event.apiCall ts2 ∈ evs → ts2 = s.timestamp := by
      rcases iterate_spec env s with ⟨r2, hr, _⟩ | ⟨m, b, r2, hm, hr, _⟩ |
        ⟨m, m2, b2, r2, hm, hm2, hr, _⟩ <;>
        rw [hit] at hr <;>
        injection hr with hr1 hr2 <;>
        rw [hr2] <;>
        intro ts2 h2 <;>
        simp at h2 <;>
        exact h2
    cases r with
    | crash e =>
      rw [runLoop] at h
      rw [hit] at h
      simp only at h
      exact hevs ts h
    | next s2 =>
      have hst := (iterate_next_state env s s2 (by rw [hit])).1
      rw [runLoop] at h
      rw [hit] at h
      simp only [List.mem_append] at h
      rcases h with h | h
      · exact hevs ts h
      · rw [ih s2 ts h]
        exact hst

/-- Reduction of `parse_status` on an object whose two required fields
are both present: it proceeds to the verdict-table lookup on the status
value. -/
lemma parse_status_obj (fields : List (String × Json)) (v1 v2 : Json)
    (h1 : assocLookup "homework_name" fields = some v1)
    (h2 : assocLookup "status" fields = some v2) :
    parse_status (.obj fields) =
      match verdictLookup v2 with
      | .error e => .error e
      | .ok none =>
        .error (.valueError ("Недокументированный статус "
          ++ "домашней работы: " ++ v2.pyToStr))
      | .ok (some verdict) =>
        .ok ("Изменился статус проверки работы \""
          ++ v1.pyToStr ++ "\". " ++ verdict) := by
  simp [parse_status, pyMissingKeys, pyContains, pySubscript,
    REQUIRED_API_KEYS, h1, h2]

/-- Whether a `parse_status` outcome is a raised `KeyError`. -/
def isKeyError : Except PyError String → Bool
  | .error (.keyError _) => true
  | _ => false

lemma isKeyError_iff (x : Except PyError String) :
    isKeyError x = true ↔ ∃ m, x = .error (.keyError m) := by
  cases x with
  | ok v => simp [isKeyError]
  | error e => cases e <;> simp [isKeyError]

/-- Reduction of `parse_status` on an object with a required field
absent: a `KeyError` from the missing-keys check. -/
lemma parse_status_obj_missing (fields : List (String × Json))
    (h : assocLookup "homework_name" fields = none
       ∨ assocLookup "status" fields = none) :
    ∃ m, parse_status (.obj fields) = .error (.keyError m) := by
  rw [← isKeyError_iff]
  cases h1 : assocLookup "homework_name" fields with
  | none =>
    cases h2 : assocLookup "status" fields with
    | none =>
      simp [isKeyError, parse_status, pyMissingKeys, pyContains,
        REQUIRED_API_KEYS, h1, h2]
    | some v2 =>
      simp [isKeyError, parse_status, pyMissingKeys, pyContains,
        REQUIRED_API_KEYS, h1, h2]
  | some v1 =>
    cases h2 : assocLookup "status" fields with
    | none =>
      simp [isKeyError, parse_status, pyMissingKeys, pyContains,
        REQUIRED_API_KEYS, h1, h2]
    | some v2 =>
      rw [h1, h2] at h
      rcases h with h | h <;> exact absurd h (by simp)

/-- With both fields present, `parse_status` never raises `KeyError`. -/
lemma parse_status_obj_not_keyError (fields : List (String × Json))
    (v1 v2 : Json)
    (h1 : assocLookup "homework_name" fields = some v1)
    (h2 : assocLookup "status" fields = some v2) :
    ∀ m, parse_status (.obj fields) ≠ .error (.keyError m) := by
  intro m
  rw [parse_status_obj fields v1 v2 h1 h2]
  cases v2 with
  | arr l => simp [verdictLookup]
  | obj l => simp [verdictLookup]
  | str s2 =>
    cases hlv : lookupVerdictKey s2 HOMEWORK_VERDICTS with
    | none => simp [verdictLookup, hlv]
    | some v => simp [verdictLookup, hlv]
  | num n => simp [verdictLookup]
  | bool b => simp [verdictLookup]
  | null => simp [verdictLookup]

/-- Each entry of the verdict table is found by the lookup (the three
keys are distinct). -/
lemma lookupVerdictKey_mem (st : String) (v : String)
    (h : (st, v) ∈ HOMEWORK_VERDICTS) :
    lookupVerdictKey st HOMEWORK_VERDICTS = some v := by
  simp [HOMEWORK_VERDICTS] at h
  rcases h with ⟨rfl, rfl⟩ | ⟨rfl, rfl⟩ | ⟨rfl, rfl⟩ <;> rfl

/-- `check_response` succeeds exactly on a dict whose `homeworks` field
is a list. -/
lemma check_response_ok_iff (response : Json) :
    check_response response = .ok () ↔
      ∃ fields l, response = Json.obj fields
        ∧ assocLookup "homeworks" fields = some (Json.arr l) := by
  cases response with
  | obj fields =>
    cases hl : assocLookup "homeworks" fields with
    | none => simp [check_response, hl]
    | some v => cases v <;> simp [check_response, hl]
  | str s => simp [check_response]
  | num n => simp [check_response]
  | bool b => simp [check_response]
  | null => simp [check_response]
  | arr l => simp [check_response]

/-- Every failure of `check_response` is a `TypeError` or a `KeyError`. -/
lemma check_response_error_classes (response : Json) (e : PyError)
    (h : check_response response = .error e) :
    (∃ m, e = PyError.typeError m) ∨ (∃ m, e = PyError.keyError m) := by
  cases response with
  | obj fields =>
    cases hl : assocLookup "homeworks" fields with
    | none =>
      simp [check_response, hl] at h
      exact Or.inr ⟨_, h.symm⟩
    | some v =>
      cases v <;> simp [check_response, hl] at h <;> exact Or.inl ⟨_, h.symm⟩
  | str s =>
    simp [check_response] at h
    exact Or.inl ⟨_, h.symm⟩
  | num n =>
    simp [check_response] at h
    exact Or.inl ⟨_, h.symm⟩
  | bool b =>
    simp [check_response] at h
    exact Or.inl ⟨_, h.symm⟩
  | null =>
    simp [check_response] at h
    exact Or.inl ⟨_, h.symm⟩
  | arr l =>
    simp [check_response] at h
    exact Or.inl ⟨_, h.symm⟩

/-- The outcome of `check_response` on a dict depends only on the
`homeworks` field. -/
lemma check_response_frame (f1 f2 : List (String × Json))
    (h : assocLookup "homeworks" f1 = assocLookup "homeworks" f2) :
    check_response (Json.obj f1) = check_response (Json.obj f2) := by
  dsimp only [check_response]
  rw [h]

/-- A falsy required credential makes `check_tokens` raise `ValueError`. -/
lemma check_tokens_error (c : Config)
    (h : ∃ name ∈ REQUIRED_TOKENS, envTruthy (tokenValue c name) = false) :
    ∃ msg, check_tokens c = .error (.valueError msg) := by
  obtain ⟨name, hmem, hfalse⟩ := h
  have hin : name ∈ REQUIRED_TOKENS.filter (fun n => !envTruthy (tokenValue c n)) :=
    List.mem_filter.mpr ⟨hmem, by simp [hfalse]⟩
  refine ⟨"Отсутствует обязательные ременные окружения: "
      ++ String.intercalate ", "
        (REQUIRED_TOKENS.filter (fun n => !envTruthy (tokenValue c n))), ?_⟩
  unfold check_tokens
  rw [if_pos (by simpa using List.ne_nil_of_mem hin)]

/-- With all credentials truthy, `check_tokens` succeeds. -/
lemma check_tokens_ok (c : Config)
    (h : ∀ name ∈ REQUIRED_TOKENS, envTruthy (tokenValue c name) = true) :
    check_tokens c = .ok () := by
  have hnil : REQUIRED_TOKENS.filter (fun n => !envTruthy (tokenValue c n)) = [] := by
    rw [List.filter_eq_nil_iff]
    intro a ha
    simp [h a ha]
  unfold check_tokens
  rw [if_neg (by simp [hnil])]

/-- Environment used to exhibit the behaviour of a loop iteration when
the GET request raises `requests.RequestException`. -/
def envC1 : Env :=
  { net := fun _ => .netFail "Connection refused", send := fun _ => .ok () }

/-- C1: refuted on the code (code bug).  The claim says every exception
of the payload/transport taxonomy raised inside a polling iteration is
caught, logged and converted into a best-effort operator notification,
and the process never crashes.  On a transport failure (and likewise on
any non-200 response) `get_api_answer` raises `APIStatusError`, the
generic handler formats the f-string over `str(error)`, the broken
`APIStatusError` string conversion of `exceptions.py` raises `NameError`
(its body reads the undefined name `response`), and that `NameError`
escapes `main`: the iteration crashes the process (after the `finally`
sleep) with no notification attempt. -/
theorem C1_apiStatusError_crashes_loop :
    iterate envC1 { timestamp := 0, old_message := "" }
      = (.crash (.nameError "name \x27response\x27 is not defined"),
         [Event.apiCall 0, Event.sleep RETRY_PERIOD]) := rfl

/-- Network results used for the Fetcher claims. -/
def netFailEnv : Int → HttpResult := fun _ => .netFail "Connection refused"

/-- A non-200 HTTP response as network result. -/
def net404 : Int → HttpResult := fun _ => .response 404 "URL" "REQ" Json.null

/-- A 200 HTTP response as network result. -/
def net200 : Int → HttpResult := fun _ => .response 200 "URL" "REQ" (Json.obj [])

/-- C2, counterexample: the claim announces a `TransportError` on
network-level failure and a distinct `RemoteStatusError` on non-200
responses, but the code raises the same exception class `APIStatusError`
in both situations. -/
theorem C2_counterexample_same_class :
    errClass (get_api_answer 0 netFailEnv) = some "APIStatusError"
  ∧ errClass (get_api_answer 0 net404) = some "APIStatusError" := ⟨rfl, rfl⟩

/-- C2, amended: `get_api_answer` returns the parsed body on HTTP 200,
raises `APIStatusError` on network-level failure, and raises the same
class `APIStatusError` on any non-200 response with a message containing
the request URL and the status code. -/
theorem C2_get_api_answer_amended (ts : Int) (net : Int → HttpResult) :
    (∀ msg, net ts = .netFail msg →
       get_api_answer ts net
         = .error (.apiStatusError ("Сбой запроса к API: " ++ msg)))
  ∧ (∀ code url req body, net ts = .response code url req body → code ≠ 200 →
       ∃ m, get_api_answer ts net = .error (.apiStatusError m)
          ∧ ContainsStr m url ∧ ContainsStr m (toString code))
  ∧ (∀ url req body, net ts = .response 200 url req body →
       get_api_answer ts net = .ok body) := by
  refine ⟨?_, ?_, ?_⟩
  · intro msg h
    simp [get_api_answer, h]
  · intro code url req body h hcode
    refine ⟨"Ошибка запроса." ++ "Статус-код: " ++ toString code ++ ". "
        ++ "Адрес запроса: " ++ url ++ "Параметры ответа: " ++ req, ?_, ?_, ?_⟩
    · simp [get_api_answer, h, hcode]
    · refine ⟨"Ошибка запроса." ++ "Статус-код: " ++ toString code ++ ". "
          ++ "Адрес запроса: ", "Параметры ответа: " ++ req, ?_⟩
      simp [String.append_assoc]
    · refine ⟨"Ошибка запроса." ++ "Статус-код: ",
          ". " ++ "Адрес запроса: " ++ url ++ "Параметры ответа: " ++ req, ?_⟩
      simp [String.append_assoc]
  · intro url req body h
    simp [get_api_answer, h]

/-- C2, witness at concrete network results. -/
theorem C2_get_api_answer_amended_witness :
    get_api_answer 0 netFailEnv
      = .error (.apiStatusError ("Сбой запроса к API: " ++ "Connection refused"))
  ∧ (∃ m, get_api_answer 1 net404 = .error (.apiStatusError m)
       ∧ ContainsStr m "URL" ∧ ContainsStr m (toString 404))
  ∧ get_api_answer 2 net200 = .ok (Json.obj []) :=
  ⟨(C2_get_api_answer_amended 0 netFailEnv).1 "Connection refused" rfl,
   (C2_get_api_answer_amended 1 net404).2.1 404 "URL" "REQ" Json.null rfl
     (by decide),
   (C2_get_api_answer_amended 2 net200).2.2 "URL" "REQ" (Json.obj []) rfl⟩

/-- C3: `parse_status` raises `KeyError` (the missing-field error)
exactly when a required field (the record name field `homework_name`, or
`status`) is absent from the record. -/
theorem C3_missing_field_iff_keyError (fields : List (String × Json)) :
    (∃ m, parse_status (Json.obj fields) = .error (.keyError m))
  ↔ (assocLookup "homework_name" fields = none
     ∨ assocLookup "status" fields = none) := by
  constructor
  · intro h
    by_contra hno
    push_neg at hno
    obtain ⟨h1, h2⟩ := hno
    rcases Option.ne_none_iff_exists'.mp h1 with ⟨v1, hv1⟩
    rcases Option.ne_none_iff_exists'.mp h2 with ⟨v2, hv2⟩
    obtain ⟨m, hm⟩ := h
    exact parse_status_obj_not_keyError fields v1 v2 hv1 hv2 m hm
  · exact parse_status_obj_missing fields

/-- C3, witness: a record with `status` only. -/
theorem C3_missing_field_witness :
    ∃ m, parse_status (Json.obj [("status", Json.str "approved")])
      = .error (.keyError m) :=
  (C3_missing_field_iff_keyError [("status", Json.str "approved")]).mpr
    (Or.inl rfl)

/-- Environment of a successful iteration: one approved record, send
succeeds. -/
def envC4 : Env :=
  { net := fun _ => .response 200 "u" "r" (Json.obj [("homeworks",
      Json.arr [Json.obj [("homework_name", Json.str "hw1"),
        ("status", Json.str "approved")]])]),
    send := fun _ => .ok () }

/-- C4: in every iteration each send attempt carries a text that differs
from the last-notified message; the last-notified message changes only
to the text of a successful send; and across any run the successful
sends never repeat a value in consecutive positions (a failed attempt
leaves the last-notified message unchanged and may be retried). -/
theorem C4_no_duplicate_consecutive_sends (env : Env) (s : BotState) (n : Nat) :
    (∀ p ∈ sendMsgs (iterate env s).2, p.1 ≠ s.old_message)
  ∧ (∀ s2, (iterate env s).1 = StepResult.next s2 →
       (okSends (iterate env s).2 = [] ∧ s2.old_message = s.old_message)
     ∨ ∃ m, okSends (iterate env s).2 = [m] ∧ m ≠ s.old_message
         ∧ s2.old_message = m)
  ∧ ChainFrom s.old_message (okSends (runLoop env s n).2)
  ∧ List.Chain' (fun a b => a ≠ b) (okSends (runLoop env s n).2) :=
  ⟨iterate_sendMsgs env s,
   fun s2 h => (iterate_next_state env s s2 h).2,
   runLoop_chain env n s,
   chainFrom_chain (runLoop_chain env n s)⟩

/-- C4, witness at a successful iteration. -/
theorem C4_no_duplicate_consecutive_sends_witness :
    ("Изменился статус проверки работы \"hw1\". Работа проверена: ревьюеру всё понравилось. Ура!" : String) ≠ ""
  ∧ ((okSends (iterate envC4 { timestamp := 0, old_message := "" }).2 = []
       ∧ (BotState.mk 0 "Изменился статус проверки работы \"hw1\". Работа проверена: ревьюеру всё понравилось. Ура!").old_message
         = ({ timestamp := 0, old_message := "" } : BotState).old_message)
     ∨ ∃ m, okSends (iterate envC4 { timestamp := 0, old_message := "" }).2 = [m]
         ∧ m ≠ ({ timestamp := 0, old_message := "" } : BotState).old_message
         ∧ (BotState.mk 0 "Изменился статус проверки работы \"hw1\". Работа проверена: ревьюеру всё понравилось. Ура!").old_message
           = m) :=
  ⟨(C4_no_duplicate_consecutive_sends envC4 { timestamp := 0, old_message := "" } 1).1
     ("Изменился статус проверки работы \"hw1\". Работа проверена: ревьюеру всё понравилось. Ура!", true)
     (by decide),
   (C4_no_duplicate_consecutive_sends envC4 { timestamp := 0, old_message := "" } 1).2.1
     (BotState.mk 0 "Изменился статус проверки работы \"hw1\". Работа проверена: ревьюеру всё понравилось. Ура!")
     rfl⟩

/-- C5: for every record with both required fields and a recognized
status, `parse_status` returns the fixed template filled with the
record name and the verdict of that status; in particular the approved
record named hw1 yields exactly the expected message. -/
theorem C5_template_message :
    (∀ (fields : List (String × Json)) (nm : Json) (st v : String),
        assocLookup "homework_name" fields = some nm →
        assocLookup "status" fields = some (Json.str st) →
        (st, v) ∈ HOMEWORK_VERDICTS →
        parse_status (Json.obj fields)
          = .ok ("Изменился статус проверки работы \"" ++ nm.pyToStr
              ++ "\". " ++ v))
  ∧ parse_status (Json.obj [("homework_name", Json.str "hw1"),
        ("status", Json.str "approved")])
      = .ok "Изменился статус проверки работы \"hw1\". Работа проверена: ревьюеру всё понравилось. Ура!" := by
  constructor
  · intro fields nm st v h1 h2 hmem
    rw [parse_status_obj fields nm (Json.str st) h1 h2]
    simp [verdictLookup, lookupVerdictKey_mem st v hmem]
  · rfl

/-- C5, witness at a rejected record. -/
theorem C5_template_message_witness :
    parse_status (Json.obj [("homework_name", Json.str "w2"),
        ("status", Json.str "rejected")])
      = .ok ("Изменился статус проверки работы \""
          ++ (Json.str "w2").pyToStr ++ "\". "
          ++ "Работа проверена: у ревьюера есть замечания.") :=
  C5_template_message.1 [("homework_name", Json.str "w2"),
      ("status", Json.str "rejected")]
    (Json.str "w2") "rejected" "Работа проверена: у ревьюера есть замечания."
    rfl rfl (by simp [HOMEWORK_VERDICTS])

/-- C6: `check_response` raises exactly when the value is not a dict
with a list under the `homeworks` key; every raised error is a
`TypeError` or a `KeyError` (the shape errors); and the outcome on a
dict depends only on the `homeworks` field (no other field is
inspected).  The check is pure by construction. -/
theorem C6_check_response_shape :
    (∀ response : Json,
       (∃ e, check_response response = .error e)
         ↔ ¬ ∃ fields l, response = Json.obj fields
               ∧ assocLookup "homeworks" fields = some (Json.arr l))
  ∧ (∀ (response : Json) (e : PyError), check_response response = .error e →
       (∃ m, e = PyError.typeError m) ∨ (∃ m, e = PyError.keyError m))
  ∧ (∀ f1 f2 : List (String × Json),
       assocLookup "homeworks" f1 = assocLookup "homeworks" f2 →
       check_response (Json.obj f1) = check_response (Json.obj f2)) := by
  refine ⟨?_, check_response_error_classes, check_response_frame⟩
  intro response
  constructor
  · rintro ⟨e, he⟩ hex
    rw [(check_response_ok_iff response).mpr hex] at he
    exact Except.noConfusion he
  · intro hno
    cases hcr : check_response response with
    | ok v =>
      cases v
      exact absurd ((check_response_ok_iff response).mp hcr) hno
    | error e => exact ⟨e, rfl⟩

/-- C6, witness: a non-dict value fails; the frame property at equal
`homeworks` fields. -/
theorem C6_check_response_shape_witness :
    (∃ e, check_response Json.null = .error e)
  ∧ check_response (Json.obj [("homeworks", Json.arr []), ("x", Json.num 1)])
      = check_response (Json.obj [("homeworks", Json.arr [])]) :=
  ⟨(C6_check_response_shape.1 Json.null).mpr
     (by rintro ⟨f, l, h, _⟩; cases h),
   C6_check_response_shape.2.2 [("homeworks", Json.arr []), ("x", Json.num 1)]
     [("homeworks", Json.arr [])] rfl⟩

/-- Configuration with an empty bot token. -/
def cMissing : Config :=
  { PRACTICUM_TOKEN := some "x", TELEGRAM_TOKEN := some "",
    TELEGRAM_CHAT_ID := some "y" }

/-- Configuration with all three credentials present and non-empty. -/
def cOk : Config :=
  { PRACTICUM_TOKEN := some "a", TELEGRAM_TOKEN := some "b",
    TELEGRAM_CHAT_ID := some "c" }

/-- An arbitrary environment for the startup claims. -/
def envC7 : Env := { net := fun _ => .netFail "x", send := fun _ => .ok () }

/-- C7: if any of the three required credentials is unset or empty,
`main` raises `ValueError` before any iteration (the event trace is
empty: no network call) and the process terminates; with all credentials
truthy it proceeds to the polling loop started at the current time with
an empty last-notified message. -/
theorem C7_fatal_config :
    (∀ (c : Config) (now : Int) (env : Env) (n : Nat),
        (∃ name ∈ REQUIRED_TOKENS, envTruthy (tokenValue c name) = false) →
        ∃ msg, mainRun c now env n = (Sum.inr (PyError.valueError msg), []))
  ∧ (∀ (c : Config) (now : Int) (env : Env) (n : Nat),
        (∀ name ∈ REQUIRED_TOKENS, envTruthy (tokenValue c name) = true) →
        mainRun c now env n
          = (Sum.inl (runLoop env { timestamp := now, old_message := "" } n).1,
             (runLoop env { timestamp := now, old_message := "" } n).2)) := by
  constructor
  · intro c now env n h
    obtain ⟨msg, hmsg⟩ := check_tokens_error c h
    exact ⟨msg, by simp [mainRun, hmsg]⟩
  · intro c now env n h
    simp [mainRun, check_tokens_ok c h]

/-- C7, witness: an empty bot token is fatal with no event; a complete
configuration reaches the loop. -/
theorem C7_fatal_config_witness :
    (∃ msg, mainRun cMissing 0 envC7 3 = (Sum.inr (PyError.valueError msg), []))
  ∧ mainRun cOk 5 envC7 0
      = (Sum.inl (runLoop envC7 { timestamp := 5, old_message := "" } 0).1,
         (runLoop envC7 { timestamp := 5, old_message := "" } 0).2) :=
  ⟨C7_fatal_config.1 cMissing 0 envC7 3
     ⟨"TELEGRAM_TOKEN", by simp [REQUIRED_TOKENS], rfl⟩,
   C7_fatal_config.2 cOk 5 envC7 0
     (by intro name hmem
         simp [REQUIRED_TOKENS] at hmem
         rcases hmem with rfl | rfl | rfl <;> rfl)⟩

/-- Environment whose review API replies HTTP 503. -/
def envC8 : Env :=
  { net := fun _ => .response 503
      "https://practicum.yandex.ru/api/user_api/homework_statuses/" "REQ"
      Json.null,
    send := fun _ => .ok () }

/-- C8: refuted on the code (code bug).  The sleep of the `finally`
block does run after the iteration (the trace below ends with the
600-second sleep), but the claim that the loop never reaches a terminal
state from normal operation fails: on a non-200 response the iteration
crashes (`NameError` from the broken `APIStatusError` string conversion
while formatting the log f-string), so a run with fuel for two
iterations stops after the first — the second API call never happens. -/
theorem C8_crash_reaches_terminal_state :
    runLoop envC8 { timestamp := 0, old_message := "" } 2
      = (.crash (.nameError "name \x27response\x27 is not defined"),
         [Event.apiCall 0, Event.sleep RETRY_PERIOD]) := rfl

/-- C9, counterexample: a record whose status value is a JSON array is
outside the three recognized values, yet `parse_status` raises
`TypeError` (Python dict membership hashes the candidate and a list is
unhashable), not the unknown-status `ValueError`. -/
theorem C9_counterexample_unhashable_status :
    parse_status (Json.obj [("homework_name", Json.str "hw"),
        ("status", Json.arr [])])
      = .error (.typeError "unhashable type: \x27list\x27") := rfl

/-- C9, amended: for every record with both required fields whose status
value is hashable (a string, number, boolean or null) and outside the
three recognized values, `parse_status` raises the unknown-status
`ValueError`, whatever the other field values are. -/
theorem C9_unknown_status_amended (fields : List (String × Json))
    (nm stJson : Json)
    (h1 : assocLookup "homework_name" fields = some nm)
    (h2 : assocLookup "status" fields = some stJson)
    (harr : ∀ l, stJson ≠ Json.arr l)
    (hobj : ∀ l, stJson ≠ Json.obj l)
    (hout : ∀ s2, stJson = Json.str s2 →
       s2 ≠ "approved" ∧ s2 ≠ "reviewing" ∧ s2 ≠ "rejected") :
    parse_status (Json.obj fields)
      = .error (.valueError ("Недокументированный статус "
          ++ "домашней работы: " ++ stJson.pyToStr)) := by
  rw [parse_status_obj fields nm stJson h1 h2]
  cases stJson with
  | arr l => exact absurd rfl (harr l)
  | obj l => exact absurd rfl (hobj l)
  | str s2 =>
    obtain ⟨ha, hr, hj⟩ := hout s2 rfl
    simp [verdictLookup, lookupVerdictKey, HOMEWORK_VERDICTS, ha, hr, hj]
  | num k => simp [verdictLookup]
  | bool b => simp [verdictLookup]
  | null => simp [verdictLookup]

/-- C9, witness at a record with an unrecognized string status. -/
theorem C9_unknown_status_amended_witness :
    parse_status (Json.obj [("homework_name", Json.str "a"),
        ("status", Json.str "weird")])
      = .error (.valueError ("Недокументированный статус "
          ++ "домашней работы: " ++ (Json.str "weird").pyToStr)) := by
  apply C9_unknown_status_amended [("homework_name", Json.str "a"),
      ("status", Json.str "weird")] (Json.str "a") (Json.str "weird") rfl rfl
  · intro l h
    cases h
  · intro l h
    cases h
  · intro s2 h
    injection h with h2
    subst h2
    exact ⟨by decide, by decide, by decide⟩

/-- Environment used to witness the fixed-timestamp claim. -/
def envC10 : Env := { net := fun _ => .netFail "x", send := fun _ => .ok () }

/-- C10: every API call of any bounded run carries the timestamp of the
starting state, and in `main` that timestamp is the startup time `now`,
never advanced. -/
theorem C10_timestamp_never_advances :
    (∀ (env : Env) (s : BotState) (n : Nat) (ts : Int),
        Event.apiCall ts ∈ (runLoop env s n).2 → ts = s.timestamp)
  ∧ (∀ (c : Config) (now : Int) (env : Env) (n : Nat) (ts : Int),
        Event.apiCall ts ∈ (mainRun c now env n).2 → ts = now) := by
  refine ⟨fun env s n ts h => runLoop_api env n s ts h, ?_⟩
  intro c now env n ts h
  cases hct : check_tokens c with
  | error e =>
    simp only [mainRun, hct] at h
    exact absurd h (by simp)
  | ok u =>
    simp only [mainRun, hct] at h
    exact runLoop_api env n { timestamp := now, old_message := "" } ts h

/-- C10, witness at concrete runs. -/
theorem C10_timestamp_never_advances_witness :
    ((5 : Int) = (BotState.mk 5 "").timestamp) ∧ ((3 : Int) = (3 : Int)) :=
  ⟨C10_timestamp_never_advances.1 envC10 (BotState.mk 5 "") 1 5 (by decide),
   C10_timestamp_never_advances.2 cOk 3 envC10 1 3 (by decide)⟩

end HomeworkBot
